import Mathlib

/-!
Shallow embedding of the stock-metrics-website fundamentals builders.

The repository has two source files:
  - src/build_metrics_json.py         (local CSV variant: to_float, build_payload)
  - src/scripts/build_fundamentals.py (EDGAR variant: pick_latest_annual_entry,
    pick_latest_annual_usd, build_multi_year_series, build_raw_from_edgar)

Modelling choices:
  - Numbers reported by the source are exact rationals.  The local variant
    additionally needs the special float values NaN and signed infinity,
    because CPython float("nan"), float("inf") succeed; those are modelled by
    the PyNum type, with exact rational magnitudes (no binary rounding).
  - JSON dictionaries (the fact table) become association lists from String;
    a missing key is a failing lookup, mirroring KeyError / dict.get.
  - Python "a or b" is truthiness based; the helpers orFloat, orEntry, orStr
    and orSeries reproduce it for each type at which the source uses it.
  - Python list.sort(key=..., reverse=True) is a stable descending sort;
    it is modelled by the stable insertion sort sortDescFy.
-/

/-! ## Python float values and CPython float() parsing (local CSV variant) -/

/-- Result of Python float(...): a finite value, modelled exactly as a
rational, or one of the special values NaN, +inf, -inf, which CPython's
float constructor accepts via the texts "nan", "inf", "infinity". -/
inductive PyNum where
  | finite (q : ℚ)
  | nan
  | inf
  | ninf
deriving DecidableEq

/-- Whitespace characters removed by Python str.strip() (ASCII subset). -/
def isPySpace (c : Char) : Bool :=
  c == ' ' || c == '\t' || c == '\n' || c == '\r' || c == '\x0b' || c == '\x0c'

/-- Python str.strip() on a character list. -/
def pyStripChars (cs : List Char) : List Char :=
  ((cs.dropWhile isPySpace).reverse.dropWhile isPySpace).reverse

/-- Python str.strip() as used by to_float. -/
def pyStrip (s : String) : String := String.mk (pyStripChars s.data)

/-- ASCII lower-casing, enough for the case-insensitive special float words. -/
def toLowerAscii (c : Char) : Char :=
  if 'A' ≤ c ∧ c ≤ 'Z' then Char.ofNat (c.toNat + 32) else c

/-- Continuation of a digit run after a digit was read: CPython permits a
single underscore only between two digits (PEP 515). -/
def runOkAux : List Char → Bool
  | [] => true
  | '_' :: [] => false
  | '_' :: c :: rest => c.isDigit && runOkAux rest
  | c :: rest => c.isDigit && runOkAux rest

/-- Validity of a nonempty digit run with PEP 515 underscores. -/
def runOk : List Char → Bool
  | [] => false
  | c :: rest => c.isDigit && runOkAux rest

/-- Characters that can appear inside a digit run. -/
def isRunChar (c : Char) : Bool := c.isDigit || c == '_'

/-- Split off the maximal digit-or-underscore run. -/
def takeRun (cs : List Char) : List Char × List Char :=
  (cs.takeWhile isRunChar, cs.dropWhile isRunChar)

/-- Underscore removal inside a validated digit run. -/
def runDigits (r : List Char) : List Char := r.filter (fun c => c != '_')

/-- Decimal digits to a natural number. -/
def digitsToNat (ds : List Char) : Nat :=
  ds.foldl (fun acc c => 10 * acc + (c.toNat - '0'.toNat)) 0

/-- Parse the exponent part of a Python float literal (after the letter e). -/
def parseExp (cs : List Char) : Option Int :=
  match cs with
  | '+' :: t =>
    let (er, r) := takeRun t
    if runOk er && r.isEmpty then some ((digitsToNat (runDigits er) : Int)) else none
  | '-' :: t =>
    let (er, r) := takeRun t
    if runOk er && r.isEmpty then some (-(digitsToNat (runDigits er) : Int)) else none
  | _ =>
    let (er, r) := takeRun cs
    if runOk er && r.isEmpty then some ((digitsToNat (runDigits er) : Int)) else none

/-- Parse the decimal part of a Python float literal: sign already removed,
text already lower-cased.  Grammar: digits [ "." digits ] [ "e" [sign] digits ]
with at least one digit in the mantissa and PEP 515 underscore rules.  The
result holds the integer-part value, the fraction-part value, the number of
fraction digits and the exponent; the rational value is assembled later by
pyDecValue, keeping this part of the parser purely discrete. -/
def parseDecimalParts (cs : List Char) : Option (Nat × Nat × Nat × Int) :=
  let (ir, rest1) := takeRun cs
  let (fr, rest2) :=
    match rest1 with
    | '.' :: t => takeRun t
    | _ => ([], rest1)
  if !(ir.isEmpty || runOk ir) then none
  else if !(fr.isEmpty || runOk fr) then none
  else if ir.isEmpty && fr.isEmpty then none
  else
    let iv := digitsToNat (runDigits ir)
    let fv := digitsToNat (runDigits fr)
    let fl := (runDigits fr).length
    match rest2 with
    | [] => some (iv, fv, fl, (0 : Int))
    | 'e' :: t =>
      match parseExp t with
      | some n => some (iv, fv, fl, n)
      | none => none
    | _ => none

/-- Lexical classification of a Python float literal. -/
inductive PyTok where
  | nanTok
  | infTok (neg : Bool)
  | decTok (neg : Bool) (iv fv fl : Nat) (ex : Int)
  | badTok
deriving DecidableEq

/-- The discrete part of CPython float(text): strip, read the sign, spot the
special words nan, inf, infinity (case-insensitive), else parse a decimal
literal; badTok covers every text on which Python raises ValueError. -/
def pyTokenize (s : String) : PyTok :=
  let cs0 := pyStripChars s.data
  let signed : Bool × List Char :=
    match cs0 with
    | '+' :: t => (false, t)
    | '-' :: t => (true, t)
    | _ => (false, cs0)
  let neg := signed.1
  let l := signed.2.map toLowerAscii
  if l == "nan".data then PyTok.nanTok
  else if l == "inf".data || l == "infinity".data then PyTok.infTok neg
  else
    match parseDecimalParts l with
    | some (iv, fv, fl, ex) => PyTok.decTok neg iv fv fl ex
    | none => PyTok.badTok

/-- Rational value of a parsed decimal literal. -/
def pyDecValue (neg : Bool) (iv fv fl : Nat) (ex : Int) : ℚ :=
  let m : ℚ := (iv : ℚ) + (fv : ℚ) / (10 : ℚ) ^ fl
  let v := m * (10 : ℚ) ^ ex
  if neg then -v else v

/-- Model of CPython float(text) on ASCII text.  Returns none exactly where
Python raises ValueError.  Magnitudes are kept as exact rationals. -/
def pyParseFloat (s : String) : Option PyNum :=
  match pyTokenize s with
  | PyTok.nanTok => some PyNum.nan
  | PyTok.infTok neg => some (if neg then PyNum.ninf else PyNum.inf)
  | PyTok.decTok neg iv fv fl ex => some (PyNum.finite (pyDecValue neg iv fv fl ex))
  | PyTok.badTok => none

/-! ## Local CSV variant: rows and to_float (src/build_metrics_json.py) -/

/-- One CSV row as produced by csv.DictReader: an association from column
name to cell text. -/
abbrev Row := List (String × String)

/-- Translation of to_float: row.get(key, "").strip(); empty maps to None;
otherwise float(val), with ValueError mapped to None. -/
def to_float (row : Row) (key : String) : Option PyNum :=
  let val := pyStrip ((row.lookup key).getD "")
  if val = "" then none
  else pyParseFloat val

/-! ## The FundamentalsDocument shape, shared by both variants -/

/-- One point of a multi-year series: a dict of the form
fy: 2024, value: ... built by build_multi_year_series. -/
structure SeriesPoint where
  fy : Int
  value : ℚ
deriving DecidableEq

/-- The market section.  The numeric type is a parameter because the local
variant carries Python floats (PyNum) while the EDGAR variant carries plain
rationals. -/
structure Market (α : Type) where
  sharePrice : Option α
  sharesOutstanding : Option α
  marketCap : Option α
  enterpriseValue : Option α
  historicalPrices : List α
deriving DecidableEq

/-- The incomeStatement group. -/
structure IncomeStatement (α : Type) where
  revenue : Option α
  cogs : Option α
  grossProfit : Option α
  operatingExpenses : Option α
  depreciationAmort : Option α
  operatingIncomeEBIT : Option α
  ebitda : Option α
  interestExpense : Option α
  pretaxIncome : Option α
  netIncome : Option α
  netIncomeExNRI : Option α
deriving DecidableEq

/-- The balanceSheet group. -/
structure BalanceSheet (α : Type) where
  totalAssets : Option α
  totalCurrentAssets : Option α
  cashAndEquivalents : Option α
  accountsReceivable : Option α
  inventory : Option α
  otherCurrentAssets : Option α
  totalLiabilities : Option α
  currentLiabilities : Option α
  accountsPayable : Option α
  longTermDebt : Option α
  shortTermDebt : Option α
  shareholdersEquity : Option α
  investedCapital : Option α
deriving DecidableEq

/-- The cashFlow group. -/
structure CashFlowStmt (α : Type) where
  operatingCashFlow : Option α
  freeCashFlow : Option α
  capitalExpenditures : Option α
  ownerEarnings : Option α
  dividendsPaid : Option α
  cashFlowFromFinancing : Option α
  taxRate : Option α
deriving DecidableEq

/-- The statements section. -/
structure Statements (α : Type) where
  incomeStatement : IncomeStatement α
  balanceSheet : BalanceSheet α
  cashFlow : CashFlowStmt α
deriving DecidableEq

/-- The optional.quality subsection. -/
structure Quality (α : Type) where
  retainedEarnings : Option α
  workingCapital : Option α
  tenYearProfitHistory : List SeriesPoint
  segmentRevenue : List SeriesPoint
deriving DecidableEq

/-- The optional.multiYearFinancials subsection. -/
structure MultiYearFinancials where
  revenue : List SeriesPoint
  ebitda : List SeriesPoint
  netIncome : List SeriesPoint
  freeCashFlow : List SeriesPoint
  bookValue : List SeriesPoint
deriving DecidableEq

/-- The optional.financingDetail subsection. -/
structure FinancingDetail (α : Type) where
  shareRepurchases : Option α
  shareIssuances : Option α
deriving DecidableEq

/-- The optional section. -/
structure OptionalSection (α : Type) where
  quality : Quality α
  multiYearFinancials : MultiYearFinancials
  financingDetail : FinancingDetail α
deriving DecidableEq

/-- The whole FundamentalsDocument. -/
structure FundamentalsDoc (α : Type) where
  asOf : String
  market : Market α
  statements : Statements α
  optional : OptionalSection α
deriving DecidableEq

/-- Translation of build_payload from src/build_metrics_json.py: build the
document from one CSV row.  Field for field the same literal as the source. -/
def build_payload (row : Row) : FundamentalsDoc PyNum :=
  { asOf := (row.lookup "asOf").getD ""
    market :=
      { sharePrice := to_float row "sharePrice"
        sharesOutstanding := to_float row "sharesOut"
        marketCap := to_float row "marketCap"
        enterpriseValue := to_float row "enterpriseValue"
        historicalPrices := [] }
    statements :=
      { incomeStatement :=
          { revenue := to_float row "revenue"
            cogs := to_float row "cogs"
            grossProfit := none
            operatingExpenses := none
            depreciationAmort := none
            operatingIncomeEBIT := to_float row "opIncome"
            ebitda := none
            interestExpense := none
            pretaxIncome := none
            netIncome := to_float row "netIncome"
            netIncomeExNRI := none }
        balanceSheet :=
          { totalAssets := to_float row "totalAssets"
            totalCurrentAssets := to_float row "currAssets"
            cashAndEquivalents := to_float row "cash"
            accountsReceivable := none
            inventory := none
            otherCurrentAssets := none
            totalLiabilities := none
            currentLiabilities := to_float row "currLiab"
            accountsPayable := none
            longTermDebt := to_float row "ltDebt"
            shortTermDebt := to_float row "stDebt"
            shareholdersEquity := none
            investedCapital := none }
        cashFlow :=
          { operatingCashFlow := to_float row "opCF"
            freeCashFlow := to_float row "fcf"
            capitalExpenditures := to_float row "capex"
            ownerEarnings := none
            dividendsPaid := none
            cashFlowFromFinancing := none
            taxRate := none } }
    optional :=
      { quality :=
          { retainedEarnings := none
            workingCapital := none
            tenYearProfitHistory := []
            segmentRevenue := [] }
        multiYearFinancials :=
          { revenue := []
            ebitda := []
            netIncome := []
            freeCashFlow := []
            bookValue := [] }
        financingDetail :=
          { shareRepurchases := none
            shareIssuances := none } } }

/-! ## EDGAR variant data model (src/scripts/build_fundamentals.py) -/

/-- One observation dict of facts.us-gaap.CONCEPT.units.USD.  Every field is
optional, mirroring the possible absence of the corresponding JSON key;
endDate models the key named end. -/
structure Obs where
  form : Option String
  fp : Option String
  fy : Option Int
  val : Option ℚ
  endDate : Option String
deriving DecidableEq

/-- Unit name to observation list, e.g. USD to entries. -/
abbrev UnitsMap := List (String × List Obs)

/-- Concept name to its units map. -/
abbrev ConceptMap := List (String × UnitsMap)

/-- Taxonomy name (us-gaap) to concepts: the companyfacts facts dict. -/
abbrev FactsDict := List (String × ConceptMap)

instance : DecidableEq UnitsMap := inferInstance

instance : DecidableEq ConceptMap := inferInstance

instance : DecidableEq FactsDict := inferInstance

/-- The top-level companyfacts JSON: entityName and facts.  The source reads
facts via company_facts.get("facts", {}); an absent facts key and an empty
dict coincide in this model. -/
structure CompanyFacts where
  entityName : Option String
  facts : FactsDict
deriving DecidableEq

/-- Translation of facts["us-gaap"][concept]["units"]["USD"] guarded by
try/except KeyError: any missing key yields none. -/
def lookupUSD (facts : FactsDict) (concept : String) : Option (List Obs) :=
  match facts.lookup "us-gaap" with
  | none => none
  | some tax =>
    match tax.lookup concept with
    | none => none
    | some units => units.lookup "USD"

/-- The filter of pick_latest_annual_entry: form == "10-K", fp == "FY" and
the key val present.  Note: fy is NOT required here. -/
def qualifiesLatest (e : Obs) : Bool :=
  e.form == some "10-K" && e.fp == some "FY" && e.val.isSome

/-- The filter of build_multi_year_series: as qualifiesLatest plus the key
fy present. -/
def qualifiesSeries (e : Obs) : Bool :=
  e.form == some "10-K" && e.fp == some "FY" && e.val.isSome && e.fy.isSome

/-- The sort key e.get("fy", 0): a missing fiscal year counts as 0. -/
def fyKey (e : Obs) : Int := e.fy.getD 0

/-- Stable insertion of an observation into a list already sorted descending
by fiscal-year key.  The inserted element precedes existing elements of equal
key because it came earlier in the original list; together with sortDescFy
this reproduces the stability of Python list.sort(..., reverse=True). -/
def insertDesc (e : Obs) : List Obs → List Obs
  | [] => [e]
  | f :: rest =>
    if fyKey f ≤ fyKey e then e :: f :: rest else f :: insertDesc e rest

/-- Model of annual.sort(key=lambda e: e.get("fy", 0), reverse=True): a
stable descending sort by fiscal-year key. -/
def sortDescFy : List Obs → List Obs
  | [] => []
  | e :: rest => insertDesc e (sortDescFy rest)

/-- Translation of pick_latest_annual_entry: filter to annual 10-K FY entries
carrying a value, sort descending by fiscal year (stable), return the first,
or None when nothing qualifies or a lookup key is missing. -/
def pick_latest_annual_entry (facts : FactsDict) (concept : String) : Option Obs :=
  match lookupUSD facts concept with
  | none => none
  | some entries =>
    let annual := entries.filter qualifiesLatest
    if annual.isEmpty then none
    else (sortDescFy annual).head?

/-- Translation of pick_latest_annual_usd: the selected entry's val. -/
def pick_latest_annual_usd (facts : FactsDict) (concept : String) : Option ℚ :=
  match pick_latest_annual_entry facts concept with
  | none => none
  | some e => e.val

/-- The collection loop of build_multi_year_series: walk the sorted list,
skip already seen fiscal years, append, and stop once the output has reached
limit entries (the length test runs AFTER the append, exactly as in the
source).  The filter guarantees fy and val are present, so the getD defaults
are never exercised on reachable inputs. -/
def collectGo (limit : Nat) : List Obs → List Int → Nat → List SeriesPoint
  | [], _, _ => []
  | e :: rest, seen, count =>
    if fyKey e ∈ seen then collectGo limit rest seen count
    else
      let p : SeriesPoint := { fy := fyKey e, value := e.val.getD 0 }
      if limit ≤ count + 1 then [p]
      else p :: collectGo limit rest (fyKey e :: seen) (count + 1)

/-- Translation of build_multi_year_series: filter to annual entries with a
value and a fiscal year, sort descending by fiscal year, keep the first
observation per distinct year up to limit_years years, then reverse so the
series reads oldest to newest. -/
def build_multi_year_series (facts : FactsDict) (concept : String)
    (limit_years : Nat) : List SeriesPoint :=
  match lookupUSD facts concept with
  | none => []
  | some entries =>
    let annual := entries.filter qualifiesSeries
    if annual.isEmpty then []
    else (collectGo limit_years (sortDescFy annual) [] 0).reverse

/-! ## Python "or" at the types the source uses it -/

/-- Python a or b where a is an optional float: None and 0.0 are falsy. -/
def orFloat (a : Option ℚ) (b : Option ℚ) : Option ℚ :=
  match a with
  | some x => if x = 0 then b else some x
  | none => b

/-- Python a or b where a is an optional observation dict.  A qualifying
observation dict is a non-empty dict, hence truthy, so the choice reduces to
first-non-None. -/
def orEntry (a b : Option Obs) : Option Obs :=
  match a with
  | some e => some e
  | none => b

/-- Python a or b where a is an optional string: None and "" are falsy. -/
def orStr (a : Option String) (b : String) : String :=
  match a with
  | some s => if s = "" then b else s
  | none => b

/-- Python a or b on lists: the empty list is falsy. -/
def orSeries (a b : List SeriesPoint) : List SeriesPoint :=
  if a.isEmpty then b else a

/-- Python str(x) for x an optional integer: str(None) is the text None. -/
def pyStrOfFy (fy : Option Int) : String :=
  match fy with
  | some n => toString n
  | none => "None"

/-- Translation of build_raw_from_edgar: convert companyfacts into the
document, following the source line by line. -/
def build_raw_from_edgar (company_facts : CompanyFacts) : FundamentalsDoc ℚ :=
  let facts := company_facts.facts
  let latest := fun c => pick_latest_annual_usd facts c
  let revenue := orFloat (latest "Revenues") (latest "SalesRevenueNet")
  let cogs := orFloat (latest "CostOfRevenue") (latest "CostOfGoodsAndServicesSold")
  let gross_profit := latest "GrossProfit"
  let operating_income := orFloat (latest "OperatingIncomeLoss") (latest "OperatingIncome")
  let net_income := latest "NetIncomeLoss"
  let total_assets := latest "Assets"
  let total_liabilities := latest "Liabilities"
  let equity := orFloat (latest "StockholdersEquity")
    (latest "StockholdersEquityIncludingPortionAttributableToNoncontrollingInterest")
  let cash := orFloat (latest "CashAndCashEquivalentsAtCarryingValue")
    (latest "CashAndCashEquivalentsFairValueDisclosure")
  let long_term_debt := orFloat (latest "LongTermDebtNoncurrent") (latest "LongTermDebt")
  let short_term_debt := orFloat (latest "DebtCurrent") (latest "ShortTermBorrowings")
  let current_assets := latest "AssetsCurrent"
  let current_liabilities := latest "LiabilitiesCurrent"
  let working_capital : Option ℚ :=
    match current_assets, current_liabilities with
    | some a, some l => some (a - l)
    | _, _ => none
  let retained_earnings := latest "RetainedEarningsAccumulatedDeficit"
  let ocf := orFloat (latest "NetCashProvidedByUsedInOperatingActivities")
    (latest "NetCashProvidedByUsedInOperatingActivitiesContinuingOperations")
  let capex := orFloat (latest "PaymentsToAcquirePropertyPlantAndEquipment")
    (latest "CapitalExpenditures")
  let fcf : Option ℚ :=
    match ocf, capex with
    | some a, some b => some (a + b)
    | _, _ => none
  let dividends := orFloat (latest "PaymentsOfDividends") (latest "PaymentsOfDividendsCommonStock")
  let ten_year_profit_history := build_multi_year_series facts "NetIncomeLoss" 10
  let revenue_history := orSeries (build_multi_year_series facts "Revenues" 10)
    (build_multi_year_series facts "SalesRevenueNet" 10)
  let fcf_history : List SeriesPoint := []
  let ref_entry := orEntry (pick_latest_annual_entry facts "Assets")
    (orEntry (pick_latest_annual_entry facts "Revenues")
      (pick_latest_annual_entry facts "NetIncomeLoss"))
  let as_of :=
    match ref_entry with
    | some e => orStr e.endDate (pyStrOfFy e.fy)
    | none => company_facts.entityName.getD ""
  { asOf := as_of
    market :=
      { sharePrice := none
        sharesOutstanding := none
        marketCap := none
        enterpriseValue := none
        historicalPrices := [] }
    statements :=
      { incomeStatement :=
          { revenue := revenue
            cogs := cogs
            grossProfit := gross_profit
            operatingExpenses := none
            depreciationAmort := none
            operatingIncomeEBIT := operating_income
            ebitda := none
            interestExpense := none
            pretaxIncome := none
            netIncome := net_income
            netIncomeExNRI := none }
        balanceSheet :=
          { totalAssets := total_assets
            totalCurrentAssets := current_assets
            cashAndEquivalents := cash
            accountsReceivable := none
            inventory := none
            otherCurrentAssets := none
            totalLiabilities := total_liabilities
            currentLiabilities := current_liabilities
            accountsPayable := none
            longTermDebt := long_term_debt
            shortTermDebt := short_term_debt
            shareholdersEquity := equity
            investedCapital := none }
        cashFlow :=
          { operatingCashFlow := ocf
            freeCashFlow := fcf
            capitalExpenditures := capex
            ownerEarnings := none
            dividendsPaid := dividends
            cashFlowFromFinancing := none
            taxRate := none } }
    optional :=
      { quality :=
          { retainedEarnings := retained_earnings
            workingCapital := working_capital
            tenYearProfitHistory := ten_year_profit_history
            segmentRevenue := [] }
        multiYearFinancials :=
          { revenue := revenue_history
            ebitda := []
            netIncome := ten_year_profit_history
            freeCashFlow := fcf_history
            bookValue := [] }
        financingDetail :=
          { shareRepurchases := none
            shareIssuances := none } } }

/-! ## JSON rendering of the document, for the fixed-key-set claim -/

/-- A JSON value with numeric leaves of type α. -/
inductive JsonVal (α : Type) where
  | null
  | num (x : α)
  | str (s : String)
  | arr (xs : List (JsonVal α))
  | obj (fields : List (String × JsonVal α))

/-- A nullable number renders as a number or JSON null, never as a missing
key: this is where None becomes null in json.dump. -/
def optNum {α : Type} (x : Option α) : JsonVal α :=
  match x with
  | some v => JsonVal.num v
  | none => JsonVal.null

/-- Rendering of a multi-year series, each point a two-key object. -/
def seriesJson {α : Type} (liftInt : Int → α) (liftQ : ℚ → α)
    (l : List SeriesPoint) : JsonVal α :=
  JsonVal.arr (l.map fun p =>
    JsonVal.obj [("fy", JsonVal.num (liftInt p.fy)), ("value", JsonVal.num (liftQ p.value))])

/-- Rendering of the document exactly as the Python dict literal that both
build_payload and build_raw_from_edgar construct and json.dump serializes,
keys in source order. -/
def renderDoc {α : Type} (liftInt : Int → α) (liftQ : ℚ → α)
    (d : FundamentalsDoc α) : JsonVal α :=
  JsonVal.obj
    [ ("asOf", JsonVal.str d.asOf),
      ("market", JsonVal.obj
        [ ("sharePrice", optNum d.market.sharePrice),
          ("sharesOutstanding", optNum d.market.sharesOutstanding),
          ("marketCap", optNum d.market.marketCap),
          ("enterpriseValue", optNum d.market.enterpriseValue),
          ("historicalPrices", JsonVal.arr (d.market.historicalPrices.map JsonVal.num)) ]),
      ("statements", JsonVal.obj
        [ ("incomeStatement", JsonVal.obj
            [ ("revenue", optNum d.statements.incomeStatement.revenue),
              ("cogs", optNum d.statements.incomeStatement.cogs),
              ("grossProfit", optNum d.statements.incomeStatement.grossProfit),
              ("operatingExpenses", optNum d.statements.incomeStatement.operatingExpenses),
              ("depreciationAmort", optNum d.statements.incomeStatement.depreciationAmort),
              ("operatingIncomeEBIT", optNum d.statements.incomeStatement.operatingIncomeEBIT),
              ("ebitda", optNum d.statements.incomeStatement.ebitda),
              ("interestExpense", optNum d.statements.incomeStatement.interestExpense),
              ("pretaxIncome", optNum d.statements.incomeStatement.pretaxIncome),
              ("netIncome", optNum d.statements.incomeStatement.netIncome),
              ("netIncomeExNRI", optNum d.statements.incomeStatement.netIncomeExNRI) ]),
          ("balanceSheet", JsonVal.obj
            [ ("totalAssets", optNum d.statements.balanceSheet.totalAssets),
              ("totalCurrentAssets", optNum d.statements.balanceSheet.totalCurrentAssets),
              ("cashAndEquivalents", optNum d.statements.balanceSheet.cashAndEquivalents),
              ("accountsReceivable", optNum d.statements.balanceSheet.accountsReceivable),
              ("inventory", optNum d.statements.balanceSheet.inventory),
              ("otherCurrentAssets", optNum d.statements.balanceSheet.otherCurrentAssets),
              ("totalLiabilities", optNum d.statements.balanceSheet.totalLiabilities),
              ("currentLiabilities", optNum d.statements.balanceSheet.currentLiabilities),
              ("accountsPayable", optNum d.statements.balanceSheet.accountsPayable),
              ("longTermDebt", optNum d.statements.balanceSheet.longTermDebt),
              ("shortTermDebt", optNum d.statements.balanceSheet.shortTermDebt),
              ("shareholdersEquity", optNum d.statements.balanceSheet.shareholdersEquity),
              ("investedCapital", optNum d.statements.balanceSheet.investedCapital) ]),
          ("cashFlow", JsonVal.obj
            [ ("operatingCashFlow", optNum d.statements.cashFlow.operatingCashFlow),
              ("freeCashFlow", optNum d.statements.cashFlow.freeCashFlow),
              ("capitalExpenditures", optNum d.statements.cashFlow.capitalExpenditures),
              ("ownerEarnings", optNum d.statements.cashFlow.ownerEarnings),
              ("dividendsPaid", optNum d.statements.cashFlow.dividendsPaid),
              ("cashFlowFromFinancing", optNum d.statements.cashFlow.cashFlowFromFinancing),
              ("taxRate", optNum d.statements.cashFlow.taxRate) ]) ]),
      ("optional", JsonVal.obj
        [ ("quality", JsonVal.obj
            [ ("retainedEarnings", optNum d.optional.quality.retainedEarnings),
              ("workingCapital", optNum d.optional.quality.workingCapital),
              ("tenYearProfitHistory", seriesJson liftInt liftQ d.optional.quality.tenYearProfitHistory),
              ("segmentRevenue", seriesJson liftInt liftQ d.optional.quality.segmentRevenue) ]),
          ("multiYearFinancials", JsonVal.obj
            [ ("revenue", seriesJson liftInt liftQ d.optional.multiYearFinancials.revenue),
              ("ebitda", seriesJson liftInt liftQ d.optional.multiYearFinancials.ebitda),
              ("netIncome", seriesJson liftInt liftQ d.optional.multiYearFinancials.netIncome),
              ("freeCashFlow", seriesJson liftInt liftQ d.optional.multiYearFinancials.freeCashFlow),
              ("bookValue", seriesJson liftInt liftQ d.optional.multiYearFinancials.bookValue) ]),
          ("financingDetail", JsonVal.obj
            [ ("shareRepurchases", optNum d.optional.financingDetail.shareRepurchases),
              ("shareIssuances", optNum d.optional.financingDetail.shareIssuances) ]) ]) ]

/-- Keys of a JSON object, in order; empty for non-objects. -/
def topKeys {α : Type} : JsonVal α → List String
  | JsonVal.obj fields => fields.map Prod.fst
  | _ => []

/-- Walk a JSON value along a path of keys. -/
def atPath {α : Type} : List String → JsonVal α → Option (JsonVal α)
  | [], j => some j
  | k :: rest, JsonVal.obj fields =>
    match fields.lookup k with
    | some v => atPath rest v
    | none => none
  | _ :: _, _ => none

/-- Key list of the object reached by a path. -/
def keysAt {α : Type} (j : JsonVal α) (path : List String) : Option (List String) :=
  (atPath path j).map topKeys

/-! ## Auxiliary definitions used to characterize selection and series -/

/-- First element of a list attaining the maximal fiscal-year key; this is
what head-of-stable-descending-sort computes. -/
def firstMax : List Obs → Option Obs
  | [] => none
  | e :: rest =>
    match firstMax rest with
    | none => some e
    | some m => if fyKey m ≤ fyKey e then some e else some m

/-- First-occurrence deduplication of a key list, given keys already seen. -/
def dedupKeysGo : List Int → List Int → List Int
  | [], _ => []
  | k :: rest, seen =>
    if k ∈ seen then dedupKeysGo rest seen
    else k :: dedupKeysGo rest (k :: seen)

/-- The distinct fiscal-year keys of a list of observations, first
occurrences first. -/
def distinctFys (l : List Obs) : List Int := dedupKeysGo (l.map fyKey) []

/-- The collection loop of build_multi_year_series without the length cap:
one series point per distinct fiscal year, first occurrence wins. -/
def collectAll : List Obs → List Int → List SeriesPoint
  | [], _ => []
  | e :: rest, seen =>
    if fyKey e ∈ seen then collectAll rest seen
    else { fy := fyKey e, value := e.val.getD 0 } :: collectAll rest (fyKey e :: seen)

/-- Finite-or-null test on an optional Python float, used to state the
numeric-leaf invariant. -/
def isFiniteOrNull : Option PyNum → Bool
  | none => true
  | some (PyNum.finite _) => true
  | some _ => false

/-! ## Key-set constants of the document schema -/

/-- Top-level keys of the document. -/
def topLevelKeys : List String := ["asOf", "market", "statements", "optional"]

/-- Keys of the market section. -/
def marketKeys : List String :=
  ["sharePrice", "sharesOutstanding", "marketCap", "enterpriseValue", "historicalPrices"]

/-- Keys of the statements section. -/
def statementsKeys : List String := ["incomeStatement", "balanceSheet", "cashFlow"]

/-- Keys of the incomeStatement group. -/
def incomeStatementKeys : List String :=
  ["revenue", "cogs", "grossProfit", "operatingExpenses", "depreciationAmort",
   "operatingIncomeEBIT", "ebitda", "interestExpense", "pretaxIncome", "netIncome",
   "netIncomeExNRI"]

/-- Keys of the balanceSheet group. -/
def balanceSheetKeys : List String :=
  ["totalAssets", "totalCurrentAssets", "cashAndEquivalents", "accountsReceivable",
   "inventory", "otherCurrentAssets", "totalLiabilities", "currentLiabilities",
   "accountsPayable", "longTermDebt", "shortTermDebt", "shareholdersEquity",
   "investedCapital"]

/-- Keys of the cashFlow group. -/
def cashFlowKeys : List String :=
  ["operatingCashFlow", "freeCashFlow", "capitalExpenditures", "ownerEarnings",
   "dividendsPaid", "cashFlowFromFinancing", "taxRate"]

/-- Keys of the optional section. -/
def optionalKeys : List String := ["quality", "multiYearFinancials", "financingDetail"]

/-- Keys of the optional.quality subsection. -/
def qualityKeys : List String :=
  ["retainedEarnings", "workingCapital", "tenYearProfitHistory", "segmentRevenue"]

/-- Keys of the optional.multiYearFinancials subsection. -/
def multiYearKeys : List String :=
  ["revenue", "ebitda", "netIncome", "freeCashFlow", "bookValue"]

/-- Keys of the optional.financingDetail subsection. -/
def financingKeys : List String := ["shareRepurchases", "shareIssuances"]

/-- The fixed key set of a rendered document: every section and every nested
line-item key is present, with exactly the schema keys, at every level. -/
def fixedShape {α : Type} (j : JsonVal α) : Prop :=
  keysAt j [] = some topLevelKeys ∧
  keysAt j ["market"] = some marketKeys ∧
  keysAt j ["statements"] = some statementsKeys ∧
  keysAt j ["statements", "incomeStatement"] = some incomeStatementKeys ∧
  keysAt j ["statements", "balanceSheet"] = some balanceSheetKeys ∧
  keysAt j ["statements", "cashFlow"] = some cashFlowKeys ∧
  keysAt j ["optional"] = some optionalKeys ∧
  keysAt j ["optional", "quality"] = some qualityKeys ∧
  keysAt j ["optional", "multiYearFinancials"] = some multiYearKeys ∧
  keysAt j ["optional", "financingDetail"] = some financingKeys

/-! ## Concrete inputs used by witnesses and counterexamples -/

/-- An annual 10-K FY observation with a fiscal year and a USD value. -/
def obsFY (y : Int) (v : ℚ) : Obs :=
  { form := some "10-K", fp := some "FY", fy := some y, val := some v, endDate := none }

/-- An annual 10-K FY observation carrying a value but no fiscal year. -/
def obsNoFy (v : ℚ) : Obs :=
  { form := some "10-K", fp := some "FY", fy := none, val := some v, endDate := none }

/-- An annual 10-K FY observation with a period-end date string. -/
def obsEnd (y : Int) (v : ℚ) (ed : String) : Obs :=
  { form := some "10-K", fp := some "FY", fy := some y, val := some v, endDate := some ed }

/-- Fact table in which the first revenue concept reports the value 0 and the
fallback concept reports 5. -/
def exC1cf : CompanyFacts :=
  { entityName := none
    facts := [("us-gaap",
      [("Revenues", [("USD", [obsFY 2023 0])]),
       ("SalesRevenueNet", [("USD", [obsFY 2023 5])])])] }

/-- Fact table in which the first revenue concept reports 7. -/
def exC1wcf : CompanyFacts :=
  { entityName := none
    facts := [("us-gaap",
      [("Revenues", [("USD", [obsFY 2023 7])]),
       ("SalesRevenueNet", [("USD", [obsFY 2023 5])])])] }

/-- Observation list with a fiscal-year tie between the first two entries. -/
def exC2entries : List Obs := [obsFY 2023 1, obsFY 2023 2, obsFY 2022 3]

/-- Fact table holding exC2entries under Assets. -/
def exC2facts : FactsDict := [("us-gaap", [("Assets", [("USD", exC2entries)])])]

/-- Fact table with a single qualifying net-income observation. -/
def exC3facts : FactsDict :=
  [("us-gaap", [("NetIncomeLoss", [("USD", [obsFY 2023 5])])])]

/-- Observation list with three distinct fiscal years. -/
def exC3wentries : List Obs := [obsFY 2021 1, obsFY 2022 2, obsFY 2023 3]

/-- Fact table holding exC3wentries under Revenues. -/
def exC3wfacts : FactsDict := [("us-gaap", [("Revenues", [("USD", exC3wentries)])])]

/-- Fact table whose only Assets observation has no fiscal year. -/
def exC4facts : FactsDict :=
  [("us-gaap", [("Assets", [("USD", [obsNoFy 7])])])]

/-- Fact table whose Assets concept reports only EUR values. -/
def exC4wfacts : FactsDict :=
  [("us-gaap", [("Assets", [("EUR", [obsFY 2023 9])])])]

/-- CSV row whose revenue cell holds the text nan. -/
def exC5row : Row := [("ticker", "XYZ"), ("revenue", "nan")]

/-- CSV row whose cogs cell holds unparseable text. -/
def exC5wrow : Row := [("ticker", "XYZ"), ("cogs", "abc")]

/-- CSV row with numeric current assets and current liabilities. -/
def exC6row : Row := [("ticker", "XYZ"), ("currAssets", "500"), ("currLiab", "300")]

/-- Fact table with current assets 500 and current liabilities 300. -/
def exC6cf : CompanyFacts :=
  { entityName := none
    facts := [("us-gaap",
      [("AssetsCurrent", [("USD", [obsFY 2023 500])]),
       ("LiabilitiesCurrent", [("USD", [obsFY 2023 300])])])] }

/-- Fact table with operating cash flow 110 and capital expenditures -20. -/
def exC7cf : CompanyFacts :=
  { entityName := none
    facts := [("us-gaap",
      [("NetCashProvidedByUsedInOperatingActivities", [("USD", [obsFY 2023 110])]),
       ("PaymentsToAcquirePropertyPlantAndEquipment", [("USD", [obsFY 2023 (-20)])])])] }

/-- Fact table whose Assets entry carries the empty string as end date. -/
def exC8cf : CompanyFacts :=
  { entityName := some "Empty End Corp"
    facts := [("us-gaap", [("Assets", [("USD", [obsEnd 2023 1 ""])])])] }

/-- Fact table whose Assets entry carries a normal end date. -/
def exC8wcf : CompanyFacts :=
  { entityName := some "End Corp"
    facts := [("us-gaap", [("Assets", [("USD", [obsEnd 2024 2 "2024-09-28"])])])] }

/-- The local-row example of the specification: revenue 100, empty cogs. -/
def exC9row : Row := [("ticker", "XYZ"), ("revenue", "100"), ("cogs", "")]

/-! ## Lemmas about the stable descending sort -/

lemma insertDesc_perm (e : Obs) (l : List Obs) :
    List.Perm (insertDesc e l) (e :: l) := by
  induction l with
  | nil => simp [insertDesc]
  | cons f rest ih =>
    by_cases h : fyKey f ≤ fyKey e
    · simp [insertDesc, h]
    · simp only [insertDesc, if_neg h]
      exact (ih.cons f).trans (List.Perm.swap e f rest)

lemma sortDescFy_perm (l : List Obs) : List.Perm (sortDescFy l) l := by
  induction l with
  | nil => simp [sortDescFy]
  | cons e rest ih =>
    exact (insertDesc_perm e (sortDescFy rest)).trans (ih.cons e)

lemma pairwise_insertDesc (e : Obs) (l : List Obs)
    (h : l.Pairwise (fun a b => fyKey b ≤ fyKey a)) :
    (insertDesc e l).Pairwise (fun a b => fyKey b ≤ fyKey a) := by
  induction l with
  | nil => simp [insertDesc]
  | cons f rest ih =>
    rcases List.pairwise_cons.mp h with ⟨hf, hrest⟩
    by_cases hle : fyKey f ≤ fyKey e
    · simp only [insertDesc, if_pos hle]
      refine List.pairwise_cons.mpr ⟨?_, h⟩
      intro x hx
      rcases List.mem_cons.mp hx with rfl | hx
      · exact hle
      · exact le_trans (hf x hx) hle
    · simp only [insertDesc, if_neg hle]
      refine List.pairwise_cons.mpr ⟨?_, ih hrest⟩
      intro x hx
      have hx2 := (insertDesc_perm e rest).mem_iff.mp hx
      rcases List.mem_cons.mp hx2 with rfl | hx2
      · exact le_of_lt (lt_of_not_le hle)
      · exact hf x hx2

lemma sortDescFy_pairwise (l : List Obs) :
    (sortDescFy l).Pairwise (fun a b => fyKey b ≤ fyKey a) := by
  induction l with
  | nil => simp [sortDescFy]
  | cons e rest ih => exact pairwise_insertDesc e _ ih

lemma head?_insertDesc (e : Obs) (l : List Obs) :
    (insertDesc e l).head? =
      (match l with
       | [] => some e
       | f :: _ => if fyKey f ≤ fyKey e then some e else some f) := by
  cases l with
  | nil => rfl
  | cons f rest =>
    by_cases h : fyKey f ≤ fyKey e <;> simp [insertDesc, h]

lemma sortDescFy_head? (l : List Obs) : (sortDescFy l).head? = firstMax l := by
  induction l with
  | nil => rfl
  | cons e rest ih =>
    show (insertDesc e (sortDescFy rest)).head? = firstMax (e :: rest)
    rw [head?_insertDesc]
    cases hs : sortDescFy rest with
    | nil =>
      have hrest : rest = [] := by
        have hp := sortDescFy_perm rest
        rw [hs] at hp
        exact (hp.symm).eq_nil
      subst hrest
      rfl
    | cons f t =>
      have hf : firstMax rest = some f := by
        rw [← ih, hs]
        rfl
      simp only [firstMax, hf]

lemma firstMax_cons_none {f : Obs} {rest : List Obs} (hm : firstMax rest = none) :
    firstMax (f :: rest) = some f := by
  simp only [firstMax, hm]

lemma firstMax_cons_some {f m : Obs} {rest : List Obs} (hm : firstMax rest = some m) :
    firstMax (f :: rest) = if fyKey m ≤ fyKey f then some f else some m := by
  simp only [firstMax, hm]

lemma firstMax_eq_none {l : List Obs} (h : firstMax l = none) : l = [] := by
  cases l with
  | nil => rfl
  | cons f rest =>
    exfalso
    cases hm : firstMax rest with
    | none =>
      rw [firstMax_cons_none hm] at h
      exact Option.noConfusion h
    | some m =>
      rw [firstMax_cons_some hm] at h
      by_cases hle : fyKey m ≤ fyKey f
      · rw [if_pos hle] at h
        exact Option.noConfusion h
      · rw [if_neg hle] at h
        exact Option.noConfusion h

lemma firstMax_mem {l : List Obs} {e : Obs} (h : firstMax l = some e) : e ∈ l := by
  induction l with
  | nil => simp [firstMax] at h
  | cons f rest ih =>
    cases hm : firstMax rest with
    | none =>
      rw [firstMax_cons_none hm] at h
      simp only [Option.some.injEq] at h
      subst h
      exact List.mem_cons_self f rest
    | some m =>
      rw [firstMax_cons_some hm] at h
      by_cases hle : fyKey m ≤ fyKey f
      · rw [if_pos hle] at h
        simp only [Option.some.injEq] at h
        subst h
        exact List.mem_cons_self f rest
      · rw [if_neg hle] at h
        simp only [Option.some.injEq] at h
        subst h
        exact List.mem_cons_of_mem f (ih hm)

lemma firstMax_isMax : ∀ {l : List Obs} {e : Obs}, firstMax l = some e →
    ∀ x ∈ l, fyKey x ≤ fyKey e := by
  intro l
  induction l with
  | nil => intro e h; simp [firstMax] at h
  | cons f rest ih =>
    intro e h
    cases hm : firstMax rest with
    | none =>
      rw [firstMax_cons_none hm] at h
      simp only [Option.some.injEq] at h
      subst h
      have hrest : rest = [] := firstMax_eq_none hm
      subst hrest
      intro x hx
      rcases List.mem_cons.mp hx with rfl | hx
      · exact le_refl _
      · simp at hx
    | some m =>
      rw [firstMax_cons_some hm] at h
      by_cases hle : fyKey m ≤ fyKey f
      · rw [if_pos hle] at h
        simp only [Option.some.injEq] at h
        subst h
        intro x hx
        rcases List.mem_cons.mp hx with rfl | hx
        · exact le_refl _
        · exact le_trans (ih hm x hx) hle
      · rw [if_neg hle] at h
        simp only [Option.some.injEq] at h
        subst h
        intro x hx
        rcases List.mem_cons.mp hx with rfl | hx
        · exact le_of_lt (lt_of_not_le hle)
        · exact ih hm x hx

lemma firstMax_find? : ∀ {l : List Obs} {e : Obs}, firstMax l = some e →
    l.find? (fun x => fyKey x == fyKey e) = some e := by
  intro l
  induction l with
  | nil => intro e h; simp [firstMax] at h
  | cons f rest ih =>
    intro e h
    cases hm : firstMax rest with
    | none =>
      rw [firstMax_cons_none hm] at h
      simp only [Option.some.injEq] at h
      subst h
      simp [List.find?]
    | some m =>
      rw [firstMax_cons_some hm] at h
      by_cases hle : fyKey m ≤ fyKey f
      · rw [if_pos hle] at h
        simp only [Option.some.injEq] at h
        subst h
        simp [List.find?]
      · rw [if_neg hle] at h
        simp only [Option.some.injEq] at h
        subst h
        have hne : (fyKey f == fyKey m) = false := by
          simp only [beq_eq_false_iff_ne, ne_eq]
          exact ne_of_lt (lt_of_not_le hle)
        rw [List.find?]
        rw [hne]
        exact ih hm

lemma find?_insertDesc (y : Int) (a : Obs) (m : List Obs) :
    (insertDesc a m).find? (fun x => fyKey x == y) =
      if fyKey a = y then some a else m.find? (fun x => fyKey x == y) := by
  induction m with
  | nil =>
    cases hb : fyKey a == y with
    | true =>
      have h : fyKey a = y := by simpa using hb
      simp [insertDesc, List.find?, hb, h]
    | false =>
      have h : ¬ fyKey a = y := by simpa using hb
      simp [insertDesc, List.find?, hb, h]
  | cons f rest ih =>
    by_cases hle : fyKey f ≤ fyKey a
    · simp only [insertDesc, if_pos hle]
      cases hb : fyKey a == y with
      | true =>
        have h : fyKey a = y := by simpa using hb
        simp [List.find?, hb, h]
      | false =>
        have h : ¬ fyKey a = y := by simpa using hb
        simp [List.find?, hb, h]
    · have hfa : fyKey a < fyKey f := lt_of_not_le hle
      simp only [insertDesc, if_neg hle]
      cases hbf : fyKey f == y with
      | true =>
        have hfy : fyKey f = y := by simpa using hbf
        have hay : ¬ fyKey a = y := by
          rw [← hfy]
          exact ne_of_lt hfa
        simp [List.find?, hbf, hay]
      | false =>
        simp [List.find?, hbf, ih]

lemma find?_sortDescFy (y : Int) (l : List Obs) :
    (sortDescFy l).find? (fun x => fyKey x == y) = l.find? (fun x => fyKey x == y) := by
  induction l with
  | nil => rfl
  | cons e rest ih =>
    show (insertDesc e (sortDescFy rest)).find? _ = _
    rw [find?_insertDesc]
    cases hb : fyKey e == y with
    | true =>
      have h : fyKey e = y := by simpa using hb
      simp [List.find?, hb, h]
    | false =>
      have h : ¬ fyKey e = y := by simpa using hb
      simp [List.find?, hb, h, ih]

/-! ## Lemmas about first-occurrence deduplication and the collection loop -/

lemma dedupKeysGo_sublist (ks seen : List Int) :
    List.Sublist (dedupKeysGo ks seen) ks := by
  induction ks generalizing seen with
  | nil => simp [dedupKeysGo]
  | cons k rest ih =>
    by_cases h : k ∈ seen
    · simp only [dedupKeysGo, if_pos h]
      exact (ih seen).cons k
    · simp only [dedupKeysGo, if_neg h]
      exact (ih (k :: seen)).cons₂ k

lemma mem_dedupKeysGo (k : Int) (ks seen : List Int) :
    k ∈ dedupKeysGo ks seen ↔ k ∈ ks ∧ k ∉ seen := by
  induction ks generalizing seen with
  | nil => simp [dedupKeysGo]
  | cons k0 rest ih =>
    by_cases h : k0 ∈ seen
    · simp only [dedupKeysGo, if_pos h, ih, List.mem_cons]
      constructor
      · rintro ⟨hk, hns⟩
        exact ⟨Or.inr hk, hns⟩
      · rintro ⟨hk | hk, hns⟩
        · subst hk
          exact absurd h hns
        · exact ⟨hk, hns⟩
    · simp only [dedupKeysGo, if_neg h, List.mem_cons, ih]
      constructor
      · rintro (rfl | ⟨hk, hns⟩)
        · exact ⟨Or.inl rfl, h⟩
        · refine ⟨Or.inr hk, ?_⟩
          intro hcontra
          exact hns (Or.inr hcontra)
      · rintro ⟨rfl | hk, hns⟩
        · exact Or.inl rfl
        · by_cases hkk : k = k0
          · exact Or.inl hkk
          · refine Or.inr ⟨hk, ?_⟩
            intro hcontra
            rcases hcontra with h1 | h1
            · exact hkk h1
            · exact hns h1

lemma nodup_dedupKeysGo (ks seen : List Int) : (dedupKeysGo ks seen).Nodup := by
  induction ks generalizing seen with
  | nil => simp [dedupKeysGo]
  | cons k0 rest ih =>
    by_cases h : k0 ∈ seen
    · simpa only [dedupKeysGo, if_pos h] using ih seen
    · simp only [dedupKeysGo, if_neg h]
      refine List.nodup_cons.mpr ⟨?_, ih (k0 :: seen)⟩
      intro hmem
      have hprop := (mem_dedupKeysGo k0 rest (k0 :: seen)).mp hmem
      exact hprop.2 (List.mem_cons_self k0 seen)

lemma collectAll_map_fy (l : List Obs) (seen : List Int) :
    (collectAll l seen).map SeriesPoint.fy = dedupKeysGo (l.map fyKey) seen := by
  induction l generalizing seen with
  | nil => rfl
  | cons e rest ih =>
    by_cases h : fyKey e ∈ seen
    · simp [collectAll, dedupKeysGo, h, ih]
    · simp [collectAll, dedupKeysGo, h, ih]

lemma collectGo_eq_take (limit : Nat) (l : List Obs) (seen : List Int) (count : Nat)
    (h : count < limit) :
    collectGo limit l seen count = (collectAll l seen).take (limit - count) := by
  induction l generalizing seen count with
  | nil => simp [collectGo, collectAll]
  | cons e rest ih =>
    by_cases hm : fyKey e ∈ seen
    · simp only [collectGo, collectAll, if_pos hm]
      exact ih seen count h
    · simp only [collectGo, collectAll, if_neg hm]
      by_cases hl : limit ≤ count + 1
      · have hlim : limit - count = 1 := by omega
        simp [if_pos hl, hlim]
      · have h1 : count + 1 < limit := by omega
        have hlim : limit - count = (limit - (count + 1)) + 1 := by omega
        simp [if_neg hl, hlim, ih (fyKey e :: seen) (count + 1) h1]

lemma mem_collectAll : ∀ {p : SeriesPoint} {l : List Obs} {seen : List Int},
    p ∈ collectAll l seen →
    p.fy ∉ seen ∧ ∃ e, l.find? (fun x => fyKey x == p.fy) = some e ∧
      fyKey e = p.fy ∧ e.val.getD 0 = p.value := by
  intro p l
  induction l with
  | nil => intro seen hp; simp [collectAll] at hp
  | cons e rest ih =>
    intro seen hp
    by_cases hm : fyKey e ∈ seen
    · rw [collectAll, if_pos hm] at hp
      obtain ⟨hns, e', hfind, hkey, hval⟩ := ih hp
      refine ⟨hns, e', ?_, hkey, hval⟩
      have hne : (fyKey e == p.fy) = false := by
        simp only [beq_eq_false_iff_ne, ne_eq]
        intro hcontra
        exact hns (hcontra ▸ hm)
      rw [List.find?, hne]
      exact hfind
    · rw [collectAll, if_neg hm] at hp
      rcases List.mem_cons.mp hp with rfl | hp2
      · refine ⟨hm, e, ?_, rfl, rfl⟩
        simp [List.find?]
      · obtain ⟨hns, e', hfind, hkey, hval⟩ := ih hp2
        have hnek : p.fy ≠ fyKey e := by
          intro hcontra
          exact hns (hcontra ▸ List.mem_cons_self _ _)
        refine ⟨fun hseen => hns (List.mem_cons_of_mem _ hseen), e', ?_, hkey, hval⟩
        have hne : (fyKey e == p.fy) = false := by
          simp only [beq_eq_false_iff_ne, ne_eq]
          exact fun hcontra => hnek hcontra.symm
        rw [List.find?, hne]
        exact hfind

/-! ## Claim C2 -/

/-- C2: for every concept and every ordering of its observation list, the
latest-annual-value rule selects a qualifying observation (form 10-K, fp FY,
value present, under the USD unit) whose fiscal-year key is maximal; when
several qualifying observations share that maximal fiscal year, the one
appearing first in the original list order is selected, because the
descending sort is stable.  (A missing fy is keyed as 0 by the sort key.) -/
theorem claim_C2 (facts : FactsDict) (concept : String) (entries : List Obs)
    (h : lookupUSD facts concept = some entries) :
    ((entries.filter qualifiesLatest) = [] →
      pick_latest_annual_entry facts concept = none) ∧
    ∀ e, pick_latest_annual_entry facts concept = some e →
      e ∈ entries.filter qualifiesLatest ∧
      (∀ x ∈ entries.filter qualifiesLatest, fyKey x ≤ fyKey e) ∧
      (entries.filter qualifiesLatest).find? (fun x => fyKey x == fyKey e) = some e := by
  have hpick : pick_latest_annual_entry facts concept =
      (if (entries.filter qualifiesLatest).isEmpty then none
       else (sortDescFy (entries.filter qualifiesLatest)).head?) := by
    simp only [pick_latest_annual_entry, h]
  constructor
  · intro hnil
    rw [hpick, hnil]
    simp
  · intro e he
    rw [hpick] at he
    by_cases hnil : (entries.filter qualifiesLatest).isEmpty
    · rw [if_pos hnil] at he
      exact absurd he (by simp)
    · rw [if_neg hnil] at he
      rw [sortDescFy_head?] at he
      exact ⟨firstMax_mem he, firstMax_isMax he, firstMax_find? he⟩

/-- Witness for C2 at a concrete fiscal-year tie: of the two 2023
observations, the one first in original order (value 1) is the find? result
for the selected key. -/
theorem claim_C2_witness :
    (exC2entries.filter qualifiesLatest).find?
      (fun x => fyKey x == fyKey (obsFY 2023 1)) = some (obsFY 2023 1) := by
  have h := (claim_C2 exC2facts "Assets" exC2entries rfl).2 (obsFY 2023 1) (by decide)
  exact h.2.2

/-! ## Claim C3 -/

/-- C3 (amended: the year cap must be at least 1; the source breaks only
after appending, so a cap of 0 still yields one entry): for every concept
and every year cap limit of at least 1, the multi-year series has length
min(limit, number of distinct qualifying fiscal years), hence at most limit
entries; its fiscal years are strictly increasing (oldest to newest, at most
one entry per distinct year); each point carries the value of the first
qualifying observation with that fiscal year in original order (the one
encountered first while iterating newest-first, by sort stability); the
selected fiscal years are the most recent qualifying ones; and the series
is the empty sequence, never null, when zero observations qualify. -/
theorem claim_C3_amended (facts : FactsDict) (concept : String) (limit : Nat)
    (hlim : 1 ≤ limit) :
    (lookupUSD facts concept = none → build_multi_year_series facts concept limit = []) ∧
    ∀ entries, lookupUSD facts concept = some entries →
      ((entries.filter qualifiesSeries) = [] →
        build_multi_year_series facts concept limit = []) ∧
      (build_multi_year_series facts concept limit).length ≤ limit ∧
      (build_multi_year_series facts concept limit).length
        = min limit (distinctFys (entries.filter qualifiesSeries)).length ∧
      ((build_multi_year_series facts concept limit).map SeriesPoint.fy).Pairwise (· < ·) ∧
      (∀ p ∈ build_multi_year_series facts concept limit,
        ∃ e, (entries.filter qualifiesSeries).find? (fun x => fyKey x == p.fy) = some e ∧
          e.val = some p.value) ∧
      (∀ e ∈ entries.filter qualifiesSeries,
        fyKey e ∈ (build_multi_year_series facts concept limit).map SeriesPoint.fy ∨
        ∀ p ∈ build_multi_year_series facts concept limit, fyKey e < p.fy) := by
  constructor
  · intro hnone
    simp [build_multi_year_series, hnone]
  intro entries hentries
  have hser : build_multi_year_series facts concept limit =
      (if (entries.filter qualifiesSeries).isEmpty then []
       else (collectGo limit (sortDescFy (entries.filter qualifiesSeries)) [] 0).reverse) := by
    simp only [build_multi_year_series, hentries]
  by_cases hnil : (entries.filter qualifiesSeries).isEmpty
  · have hempty : build_multi_year_series facts concept limit = [] := by
      rw [hser, if_pos hnil]
    have hannil : entries.filter qualifiesSeries = [] := by
      simpa using hnil
    rw [hempty, hannil]
    refine ⟨fun _ => rfl, by simp, ?_, by simp, by simp, by simp⟩
    simp [distinctFys, dedupKeysGo]
  · have hser2 : build_multi_year_series facts concept limit
        = ((collectAll (sortDescFy (entries.filter qualifiesSeries)) []).take limit).reverse := by
      rw [hser, if_neg hnil, collectGo_eq_take limit _ [] 0 (by omega), Nat.sub_zero]
    have hperm := sortDescFy_perm (entries.filter qualifiesSeries)
    have hpair := sortDescFy_pairwise (entries.filter qualifiesSeries)
    have hcmap : (collectAll (sortDescFy (entries.filter qualifiesSeries)) []).map SeriesPoint.fy
        = dedupKeysGo ((sortDescFy (entries.filter qualifiesSeries)).map fyKey) [] :=
      collectAll_map_fy _ []
    have hkeys_ge : ((sortDescFy (entries.filter qualifiesSeries)).map fyKey).Pairwise (· ≥ ·) := by
      rw [List.pairwise_map]
      exact hpair.imp (fun hab => hab)
    have hds_ge : (dedupKeysGo ((sortDescFy (entries.filter qualifiesSeries)).map fyKey) []).Pairwise (· ≥ ·) :=
      hkeys_ge.sublist (dedupKeysGo_sublist _ _)
    have hds_nodup : (dedupKeysGo ((sortDescFy (entries.filter qualifiesSeries)).map fyKey) []).Nodup :=
      nodup_dedupKeysGo _ _
    have hds_gt : (dedupKeysGo ((sortDescFy (entries.filter qualifiesSeries)).map fyKey) []).Pairwise (· > ·) := by
      have hand := hds_ge.and hds_nodup
      exact hand.imp (fun hab => lt_of_le_of_ne hab.1 (Ne.symm hab.2))
    have hsmap : (build_multi_year_series facts concept limit).map SeriesPoint.fy
        = ((dedupKeysGo ((sortDescFy (entries.filter qualifiesSeries)).map fyKey) []).take limit).reverse := by
      rw [hser2, List.map_reverse, List.map_take, hcmap]
    have hclen : (collectAll (sortDescFy (entries.filter qualifiesSeries)) []).length
        = (dedupKeysGo ((sortDescFy (entries.filter qualifiesSeries)).map fyKey) []).length := by
      rw [← hcmap, List.length_map]
    have hlen : (build_multi_year_series facts concept limit).length
        = min limit (dedupKeysGo ((sortDescFy (entries.filter qualifiesSeries)).map fyKey) []).length := by
      rw [hser2, List.length_reverse, List.length_take, hclen]
    have hdist : (distinctFys (entries.filter qualifiesSeries)).length
        = (dedupKeysGo ((sortDescFy (entries.filter qualifiesSeries)).map fyKey) []).length := by
      have hnd1 : (distinctFys (entries.filter qualifiesSeries)).Nodup := nodup_dedupKeysGo _ _
      have hmemiff : ∀ k, k ∈ distinctFys (entries.filter qualifiesSeries) ↔
          k ∈ dedupKeysGo ((sortDescFy (entries.filter qualifiesSeries)).map fyKey) [] := by
        intro k
        rw [distinctFys, mem_dedupKeysGo, mem_dedupKeysGo]
        simp only [List.not_mem_nil, not_false_iff, and_true]
        exact ((hperm.map fyKey).mem_iff).symm
      exact ((List.perm_ext_iff_of_nodup hnd1 hds_nodup).mpr hmemiff).length_eq
    refine ⟨?_, ?_, ?_, ?_, ?_, ?_⟩
    · intro hannil
      exact absurd (by simpa using hannil) hnil
    · rw [hlen]
      exact Nat.min_le_left _ _
    · rw [hlen, hdist]
    · rw [hsmap, List.pairwise_reverse]
      exact hds_gt.sublist (List.take_sublist limit _)
    · intro p hp
      have hp_in_c : p ∈ collectAll (sortDescFy (entries.filter qualifiesSeries)) [] := by
        rw [hser2] at hp
        exact List.mem_of_mem_take (List.mem_reverse.mp hp)
      obtain ⟨hns, e, hfind, hkey, hval⟩ := mem_collectAll hp_in_c
      rw [find?_sortDescFy] at hfind
      refine ⟨e, hfind, ?_⟩
      have hm := List.mem_of_find?_eq_some hfind
      have hq := (List.mem_filter.mp hm).2
      have hv : e.val.isSome = true := by
        simp only [qualifiesSeries, Bool.and_eq_true] at hq
        exact hq.1.2
      cases hvv : e.val with
      | none =>
        rw [hvv] at hv
        simp at hv
      | some v =>
        rw [hvv] at hval
        simp only [Option.getD_some] at hval
        rw [hval]
    · intro e he
      have hkey_in : fyKey e ∈ dedupKeysGo ((sortDescFy (entries.filter qualifiesSeries)).map fyKey) [] := by
        rw [mem_dedupKeysGo]
        refine ⟨?_, List.not_mem_nil _⟩
        exact ((hperm.map fyKey).mem_iff).mpr (List.mem_map_of_mem fyKey he)
      have hsplit := List.take_append_drop limit
        (dedupKeysGo ((sortDescFy (entries.filter qualifiesSeries)).map fyKey) [])
      have hpw_app : ((dedupKeysGo ((sortDescFy (entries.filter qualifiesSeries)).map fyKey) []).take limit
          ++ (dedupKeysGo ((sortDescFy (entries.filter qualifiesSeries)).map fyKey) []).drop limit).Pairwise (· > ·) := by
        rw [hsplit]
        exact hds_gt
      have hcross := (List.pairwise_append.mp hpw_app).2.2
      have hkey_in2 : fyKey e ∈
          (dedupKeysGo ((sortDescFy (entries.filter qualifiesSeries)).map fyKey) []).take limit
          ++ (dedupKeysGo ((sortDescFy (entries.filter qualifiesSeries)).map fyKey) []).drop limit := by
        rw [hsplit]
        exact hkey_in
      rcases List.mem_append.mp hkey_in2 with htake | hdrop
      · left
        rw [hsmap]
        exact List.mem_reverse.mpr htake
      · right
        intro p hp
        have hpfy : p.fy ∈
            (dedupKeysGo ((sortDescFy (entries.filter qualifiesSeries)).map fyKey) []).take limit := by
          have hmm : p.fy ∈ (build_multi_year_series facts concept limit).map SeriesPoint.fy :=
            List.mem_map_of_mem SeriesPoint.fy hp
          rw [hsmap] at hmm
          exact List.mem_reverse.mp hmm
        exact hcross p.fy hpfy (fyKey e) hdrop

/-- Counterexample for C3 as stated: with year cap 0 the series still
contains one entry, because the source tests the length only after
appending, so "at most limit entries for every limit" fails at limit 0. -/
theorem claim_C3_counterexample :
    (build_multi_year_series exC3facts "NetIncomeLoss" 0).length = 1 ∧
    ¬ ((build_multi_year_series exC3facts "NetIncomeLoss" 0).length ≤ 0) := by
  refine ⟨by decide, by decide⟩

/-- Witness for the amended C3 at cap 2 over three distinct fiscal years:
the series length is min 2 (number of distinct qualifying years). -/
theorem claim_C3_witness :
    (build_multi_year_series exC3wfacts "Revenues" 2).length
      = min 2 (distinctFys (exC3wentries.filter qualifiesSeries)).length := by
  have h := ((claim_C3_amended exC3wfacts "Revenues" 2 (by decide)).2 exC3wentries rfl).2.2.1
  exact h

/-! ## Claim C1 -/

lemma orFloat_first {a b : Option ℚ} {v : ℚ} (h : a = some v) (hv : v ≠ 0) :
    orFloat a b = some v := by
  subst h
  simp [orFloat, hv]

lemma orFloat_pass {a b : Option ℚ} (h : a = none ∨ a = some 0) : orFloat a b = b := by
  rcases h with rfl | rfl <;> simp [orFloat]

/-- C1 (amended: Python "or" is truthiness based, so a latest value of 0.0
falls through to the next concept, not only None): for every fallback-chained
line item, if the first concept's latest-annual value is non-null and
non-zero it is returned; if it is null or zero, the item equals the second
concept's latest-annual value (which may itself be null or zero). -/
theorem claim_C1_amended (cf : CompanyFacts) :
    (∀ v, pick_latest_annual_usd cf.facts "Revenues" = some v → v ≠ 0 →
      (build_raw_from_edgar cf).statements.incomeStatement.revenue = some v) ∧
    ((pick_latest_annual_usd cf.facts "Revenues" = none ∨
      pick_latest_annual_usd cf.facts "Revenues" = some 0) →
      (build_raw_from_edgar cf).statements.incomeStatement.revenue
        = pick_latest_annual_usd cf.facts "SalesRevenueNet") ∧
    (∀ v, pick_latest_annual_usd cf.facts "CostOfRevenue" = some v → v ≠ 0 →
      (build_raw_from_edgar cf).statements.incomeStatement.cogs = some v) ∧
    ((pick_latest_annual_usd cf.facts "CostOfRevenue" = none ∨
      pick_latest_annual_usd cf.facts "CostOfRevenue" = some 0) →
      (build_raw_from_edgar cf).statements.incomeStatement.cogs
        = pick_latest_annual_usd cf.facts "CostOfGoodsAndServicesSold") ∧
    (∀ v, pick_latest_annual_usd cf.facts "OperatingIncomeLoss" = some v → v ≠ 0 →
      (build_raw_from_edgar cf).statements.incomeStatement.operatingIncomeEBIT = some v) ∧
    ((pick_latest_annual_usd cf.facts "OperatingIncomeLoss" = none ∨
      pick_latest_annual_usd cf.facts "OperatingIncomeLoss" = some 0) →
      (build_raw_from_edgar cf).statements.incomeStatement.operatingIncomeEBIT
        = pick_latest_annual_usd cf.facts "OperatingIncome") ∧
    (∀ v, pick_latest_annual_usd cf.facts "StockholdersEquity" = some v → v ≠ 0 →
      (build_raw_from_edgar cf).statements.balanceSheet.shareholdersEquity = some v) ∧
    ((pick_latest_annual_usd cf.facts "StockholdersEquity" = none ∨
      pick_latest_annual_usd cf.facts "StockholdersEquity" = some 0) →
      (build_raw_from_edgar cf).statements.balanceSheet.shareholdersEquity
        = pick_latest_annual_usd cf.facts
            "StockholdersEquityIncludingPortionAttributableToNoncontrollingInterest") ∧
    (∀ v, pick_latest_annual_usd cf.facts "CashAndCashEquivalentsAtCarryingValue" = some v → v ≠ 0 →
      (build_raw_from_edgar cf).statements.balanceSheet.cashAndEquivalents = some v) ∧
    ((pick_latest_annual_usd cf.facts "CashAndCashEquivalentsAtCarryingValue" = none ∨
      pick_latest_annual_usd cf.facts "CashAndCashEquivalentsAtCarryingValue" = some 0) →
      (build_raw_from_edgar cf).statements.balanceSheet.cashAndEquivalents
        = pick_latest_annual_usd cf.facts "CashAndCashEquivalentsFairValueDisclosure") ∧
    (∀ v, pick_latest_annual_usd cf.facts "LongTermDebtNoncurrent" = some v → v ≠ 0 →
      (build_raw_from_edgar cf).statements.balanceSheet.longTermDebt = some v) ∧
    ((pick_latest_annual_usd cf.facts "LongTermDebtNoncurrent" = none ∨
      pick_latest_annual_usd cf.facts "LongTermDebtNoncurrent" = some 0) →
      (build_raw_from_edgar cf).statements.balanceSheet.longTermDebt
        = pick_latest_annual_usd cf.facts "LongTermDebt") ∧
    (∀ v, pick_latest_annual_usd cf.facts "DebtCurrent" = some v → v ≠ 0 →
      (build_raw_from_edgar cf).statements.balanceSheet.shortTermDebt = some v) ∧
    ((pick_latest_annual_usd cf.facts "DebtCurrent" = none ∨
      pick_latest_annual_usd cf.facts "DebtCurrent" = some 0) →
      (build_raw_from_edgar cf).statements.balanceSheet.shortTermDebt
        = pick_latest_annual_usd cf.facts "ShortTermBorrowings") ∧
    (∀ v, pick_latest_annual_usd cf.facts "NetCashProvidedByUsedInOperatingActivities" = some v → v ≠ 0 →
      (build_raw_from_edgar cf).statements.cashFlow.operatingCashFlow = some v) ∧
    ((pick_latest_annual_usd cf.facts "NetCashProvidedByUsedInOperatingActivities" = none ∨
      pick_latest_annual_usd cf.facts "NetCashProvidedByUsedInOperatingActivities" = some 0) →
      (build_raw_from_edgar cf).statements.cashFlow.operatingCashFlow
        = pick_latest_annual_usd cf.facts
            "NetCashProvidedByUsedInOperatingActivitiesContinuingOperations") ∧
    (∀ v, pick_latest_annual_usd cf.facts "PaymentsToAcquirePropertyPlantAndEquipment" = some v → v ≠ 0 →
      (build_raw_from_edgar cf).statements.cashFlow.capitalExpenditures = some v) ∧
    ((pick_latest_annual_usd cf.facts "PaymentsToAcquirePropertyPlantAndEquipment" = none ∨
      pick_latest_annual_usd cf.facts "PaymentsToAcquirePropertyPlantAndEquipment" = some 0) →
      (build_raw_from_edgar cf).statements.cashFlow.capitalExpenditures
        = pick_latest_annual_usd cf.facts "CapitalExpenditures") ∧
    (∀ v, pick_latest_annual_usd cf.facts "PaymentsOfDividends" = some v → v ≠ 0 →
      (build_raw_from_edgar cf).statements.cashFlow.dividendsPaid = some v) ∧
    ((pick_latest_annual_usd cf.facts "PaymentsOfDividends" = none ∨
      pick_latest_annual_usd cf.facts "PaymentsOfDividends" = some 0) →
      (build_raw_from_edgar cf).statements.cashFlow.dividendsPaid
        = pick_latest_annual_usd cf.facts "PaymentsOfDividendsCommonStock") := by
  refine ⟨?_, ?_, ?_, ?_, ?_, ?_, ?_, ?_, ?_, ?_, ?_, ?_, ?_, ?_, ?_, ?_, ?_, ?_, ?_, ?_⟩ <;>
    first
      | exact fun v h hv => orFloat_first h hv
      | exact fun h => orFloat_pass h

/-- Counterexample for C1 as stated: the first revenue concept yields the
non-null value 0, yet the emitted revenue equals the fallback concept's
value 5, so the first non-null concept is not what is returned. -/
theorem claim_C1_counterexample :
    pick_latest_annual_usd exC1cf.facts "Revenues" = some 0 ∧
    (build_raw_from_edgar exC1cf).statements.incomeStatement.revenue = some 5 ∧
    (build_raw_from_edgar exC1cf).statements.incomeStatement.revenue ≠
      pick_latest_annual_usd exC1cf.facts "Revenues" := by
  refine ⟨by decide, by decide, by decide⟩

/-- Witness for the amended C1: a non-null, non-zero first concept value is
returned unchanged. -/
theorem claim_C1_witness :
    (build_raw_from_edgar exC1wcf).statements.incomeStatement.revenue = some 7 :=
  (claim_C1_amended exC1wcf).1 7 (by decide) (by norm_num)

/-! ## Claim C4 -/

lemma mem_collectGo : ∀ {p : SeriesPoint} {limit : Nat} {l : List Obs}
    {seen : List Int} {count : Nat}, p ∈ collectGo limit l seen count →
    p.fy ∉ seen ∧ ∃ e, l.find? (fun x => fyKey x == p.fy) = some e ∧
      fyKey e = p.fy ∧ e.val.getD 0 = p.value := by
  intro p limit l
  induction l with
  | nil => intro seen count hp; simp [collectGo] at hp
  | cons e rest ih =>
    intro seen count hp
    by_cases hm : fyKey e ∈ seen
    · rw [collectGo, if_pos hm] at hp
      obtain ⟨hns, e', hfind, hkey, hval⟩ := ih hp
      refine ⟨hns, e', ?_, hkey, hval⟩
      have hne : (fyKey e == p.fy) = false := by
        simp only [beq_eq_false_iff_ne, ne_eq]
        intro hcontra
        exact hns (hcontra ▸ hm)
      rw [List.find?, hne]
      exact hfind
    · rw [collectGo, if_neg hm] at hp
      by_cases hl : limit ≤ count + 1
      · rw [if_pos hl] at hp
        have hpe : p = { fy := fyKey e, value := e.val.getD 0 } := by
          simpa using hp
        subst hpe
        refine ⟨hm, e, ?_, rfl, rfl⟩
        simp [List.find?]
      · rw [if_neg hl] at hp
        rcases List.mem_cons.mp hp with rfl | hp2
        · refine ⟨hm, e, ?_, rfl, rfl⟩
          simp [List.find?]
        · obtain ⟨hns, e', hfind, hkey, hval⟩ := ih hp2
          have hnek : p.fy ≠ fyKey e := by
            intro hcontra
            exact hns (hcontra ▸ List.mem_cons_self _ _)
          refine ⟨fun hseen => hns (List.mem_cons_of_mem _ hseen), e', ?_, hkey, hval⟩
          have hne : (fyKey e == p.fy) = false := by
            simp only [beq_eq_false_iff_ne, ne_eq]
            exact fun hcontra => hnek hcontra.symm
          rw [List.find?, hne]
          exact hfind

/-- C4 (amended: the latest-annual rule does NOT require the fiscal year to
be present; an observation missing fy still qualifies there, keyed as year
0, while the multi-year rule requires fy): an absent concept key, an absent
USD unit, or an observation missing val, form or fp yields null and the
empty series; every selected latest-annual entry carries form 10-K, fp FY
and a value; and every series point stems from an observation additionally
carrying its fiscal year.  No data-shape gap raises: both operations are
total, returning null or the empty sequence. -/
theorem claim_C4_amended (facts : FactsDict) (concept : String) (limit : Nat) :
    (lookupUSD facts concept = none →
      pick_latest_annual_usd facts concept = none ∧
      build_multi_year_series facts concept limit = []) ∧
    (∀ e, pick_latest_annual_entry facts concept = some e →
      ∃ entries, lookupUSD facts concept = some entries ∧ e ∈ entries ∧
        e.form = some "10-K" ∧ e.fp = some "FY" ∧ e.val.isSome = true) ∧
    (∀ entries, lookupUSD facts concept = some entries →
      ∀ p ∈ build_multi_year_series facts concept limit,
        ∃ e, e ∈ entries ∧ e.form = some "10-K" ∧ e.fp = some "FY" ∧
          e.fy = some p.fy ∧ e.val = some p.value) := by
  refine ⟨?_, ?_, ?_⟩
  · intro h
    constructor
    · simp [pick_latest_annual_usd, pick_latest_annual_entry, h]
    · simp [build_multi_year_series, h]
  · intro e he
    cases hl : lookupUSD facts concept with
    | none => simp [pick_latest_annual_entry, hl] at he
    | some entries =>
      simp only [pick_latest_annual_entry, hl] at he
      by_cases hnil : (entries.filter qualifiesLatest).isEmpty
      · rw [if_pos hnil] at he
        exact absurd he (by simp)
      · rw [if_neg hnil] at he
        rw [sortDescFy_head?] at he
        have hmem := firstMax_mem he
        have hmem2 := List.mem_filter.mp hmem
        have hq := hmem2.2
        simp only [qualifiesLatest, Bool.and_eq_true, beq_iff_eq] at hq
        exact ⟨entries, rfl, hmem2.1, hq.1.1, hq.1.2, hq.2⟩
  · intro entries hl p hp
    simp only [build_multi_year_series, hl] at hp
    by_cases hnil : (entries.filter qualifiesSeries).isEmpty
    · rw [if_pos hnil] at hp
      simp at hp
    · rw [if_neg hnil] at hp
      have hp2 := List.mem_reverse.mp hp
      obtain ⟨hns, e, hfind, hkey, hval⟩ := mem_collectGo hp2
      rw [find?_sortDescFy] at hfind
      have hm := List.mem_of_find?_eq_some hfind
      have hmem2 := List.mem_filter.mp hm
      have hq := hmem2.2
      simp only [qualifiesSeries, Bool.and_eq_true, beq_iff_eq] at hq
      have hvs : e.val.isSome = true := hq.1.2
      have hfs : e.fy.isSome = true := hq.2
      refine ⟨e, hmem2.1, hq.1.1.1, hq.1.1.2, ?_, ?_⟩
      · cases hff : e.fy with
        | none =>
          rw [hff] at hfs
          simp at hfs
        | some y =>
          rw [← hkey]
          rw [fyKey, hff]
          rfl
      · cases hvv : e.val with
        | none =>
          rw [hvv] at hvs
          simp at hvs
        | some v =>
          rw [hvv] at hval
          simp only [Option.getD_some] at hval
          rw [hval]

/-- Counterexample for C4 as stated: the sole Assets observation has no
fiscal year at all, yet the latest-annual rule selects it and returns its
value 7 instead of treating it as not qualifying. -/
theorem claim_C4_counterexample :
    (obsNoFy 7).fy = none ∧
    lookupUSD exC4facts "Assets" = some [obsNoFy 7] ∧
    pick_latest_annual_usd exC4facts "Assets" = some 7 := by
  refine ⟨rfl, by decide, by decide⟩

/-- Witness for the amended C4: a concept reported only under EUR yields
null for the latest-annual value and the empty series. -/
theorem claim_C4_witness :
    pick_latest_annual_usd exC4wfacts "Assets" = none ∧
    build_multi_year_series exC4wfacts "Assets" 10 = [] :=
  (claim_C4_amended exC4wfacts "Assets" 10).1 (by decide)

/-! ## Claim C5 -/

/-- C5 (amended: CPython float() accepts the texts nan, inf and infinity, so
a numeric leaf can be NaN or infinite; finiteness is not guaranteed): the
cell conversion maps an empty (or all-whitespace) cell to null and any text
the float parser rejects to null, never raising; and the numeric leaves of
the local document are exactly the to_float conversions of their cells,
present as null rather than omitted when absent. -/
theorem claim_C5_amended (row : Row) (key : String) :
    (pyStrip ((row.lookup key).getD "") = "" → to_float row key = none) ∧
    (∀ s, row.lookup key = some s → pyParseFloat (pyStrip s) = none →
      to_float row key = none) ∧
    (build_payload row).statements.incomeStatement.revenue = to_float row "revenue" ∧
    (build_payload row).statements.incomeStatement.cogs = to_float row "cogs" ∧
    (build_payload row).statements.balanceSheet.totalCurrentAssets = to_float row "currAssets" ∧
    (build_payload row).statements.cashFlow.operatingCashFlow = to_float row "opCF" := by
  refine ⟨?_, ?_, rfl, rfl, rfl, rfl⟩
  · intro h
    simp [to_float, h]
  · intro s hs hparse
    by_cases he : pyStrip s = ""
    · simp [to_float, hs, he]
    · simp [to_float, hs, he, hparse]

/-- Counterexample for C5 as stated: a revenue cell holding the text nan
produces the numeric leaf NaN, which is neither finite nor null. -/
theorem claim_C5_counterexample :
    isFiniteOrNull ((build_payload exC5row).statements.incomeStatement.revenue) = false := by
  decide

/-- Witness for the amended C5: unparseable text maps to null. -/
theorem claim_C5_witness : to_float exC5wrow "cogs" = none :=
  (claim_C5_amended exC5wrow "cogs").2.1 "abc" (by decide) (by decide)

/-! ## Claim C6 -/

/-- C6 (amended: only the EDGAR variant derives workingCapital; the local
CSV variant emits null for it unconditionally, even when both inputs are
present and numeric): in the EDGAR document, workingCapital is null when
either currentAssets or currentLiabilities is null and otherwise equals
their exact difference; in the local document it is always null. -/
theorem claim_C6_amended (cf : CompanyFacts) (row : Row) :
    ((build_raw_from_edgar cf).statements.balanceSheet.totalCurrentAssets = none ∨
      (build_raw_from_edgar cf).statements.balanceSheet.currentLiabilities = none →
      (build_raw_from_edgar cf).optional.quality.workingCapital = none) ∧
    (∀ a l, (build_raw_from_edgar cf).statements.balanceSheet.totalCurrentAssets = some a →
      (build_raw_from_edgar cf).statements.balanceSheet.currentLiabilities = some l →
      (build_raw_from_edgar cf).optional.quality.workingCapital = some (a - l)) ∧
    (build_payload row).optional.quality.workingCapital = none := by
  have hca : (build_raw_from_edgar cf).statements.balanceSheet.totalCurrentAssets
      = pick_latest_annual_usd cf.facts "AssetsCurrent" := rfl
  have hcl : (build_raw_from_edgar cf).statements.balanceSheet.currentLiabilities
      = pick_latest_annual_usd cf.facts "LiabilitiesCurrent" := rfl
  have hwc : (build_raw_from_edgar cf).optional.quality.workingCapital
      = (match pick_latest_annual_usd cf.facts "AssetsCurrent",
           pick_latest_annual_usd cf.facts "LiabilitiesCurrent" with
         | some a, some l => some (a - l)
         | _, _ => none) := rfl
  refine ⟨?_, ?_, rfl⟩
  · intro h
    rw [hca, hcl] at h
    rw [hwc]
    rcases h with h | h
    · rw [h]
    · rw [h]
      cases pick_latest_annual_usd cf.facts "AssetsCurrent" <;> rfl
  · intro a l ha hl
    rw [hca] at ha
    rw [hcl] at hl
    rw [hwc, ha, hl]

/-- Counterexample for C6 as stated: in the local CSV variant, a row with
currAssets 500 and currLiab 300 yields both balance-sheet fields non-null
yet workingCapital null, not 200. -/
theorem claim_C6_counterexample :
    (build_payload exC6row).statements.balanceSheet.totalCurrentAssets
      = some (PyNum.finite 500) ∧
    (build_payload exC6row).statements.balanceSheet.currentLiabilities
      = some (PyNum.finite 300) ∧
    (build_payload exC6row).optional.quality.workingCapital = none := by
  refine ⟨?_, ?_, rfl⟩
  · have hca : (build_payload exC6row).statements.balanceSheet.totalCurrentAssets
        = some (PyNum.finite (pyDecValue false 500 0 0 0)) := rfl
    rw [hca]
    norm_num [pyDecValue]
  · have hcl : (build_payload exC6row).statements.balanceSheet.currentLiabilities
        = some (PyNum.finite (pyDecValue false 300 0 0 0)) := rfl
    rw [hcl]
    norm_num [pyDecValue]

/-- Witness for the amended C6: EDGAR current assets 500 and current
liabilities 300 yield workingCapital 200. -/
theorem claim_C6_witness :
    (build_raw_from_edgar exC6cf).optional.quality.workingCapital = some 200 := by
  have h := (claim_C6_amended exC6cf []).2.1 500 300 (by decide) (by decide)
  norm_num at h
  exact h

/-! ## Claim C7 -/

/-- C7: for every fact table, freeCashFlow equals operatingCashFlow plus
capitalExpenditures, a direct sum and not a subtraction, whenever both are
non-null, and is null whenever either is null. -/
theorem claim_C7 (cf : CompanyFacts) :
    ((build_raw_from_edgar cf).statements.cashFlow.operatingCashFlow = none ∨
      (build_raw_from_edgar cf).statements.cashFlow.capitalExpenditures = none →
      (build_raw_from_edgar cf).statements.cashFlow.freeCashFlow = none) ∧
    ∀ a b, (build_raw_from_edgar cf).statements.cashFlow.operatingCashFlow = some a →
      (build_raw_from_edgar cf).statements.cashFlow.capitalExpenditures = some b →
      (build_raw_from_edgar cf).statements.cashFlow.freeCashFlow = some (a + b) := by
  have hocf : (build_raw_from_edgar cf).statements.cashFlow.operatingCashFlow
      = orFloat (pick_latest_annual_usd cf.facts "NetCashProvidedByUsedInOperatingActivities")
          (pick_latest_annual_usd cf.facts
            "NetCashProvidedByUsedInOperatingActivitiesContinuingOperations") := rfl
  have hcap : (build_raw_from_edgar cf).statements.cashFlow.capitalExpenditures
      = orFloat (pick_latest_annual_usd cf.facts "PaymentsToAcquirePropertyPlantAndEquipment")
          (pick_latest_annual_usd cf.facts "CapitalExpenditures") := rfl
  have hfcf : (build_raw_from_edgar cf).statements.cashFlow.freeCashFlow
      = (match orFloat (pick_latest_annual_usd cf.facts "NetCashProvidedByUsedInOperatingActivities")
            (pick_latest_annual_usd cf.facts
              "NetCashProvidedByUsedInOperatingActivitiesContinuingOperations"),
          orFloat (pick_latest_annual_usd cf.facts "PaymentsToAcquirePropertyPlantAndEquipment")
            (pick_latest_annual_usd cf.facts "CapitalExpenditures") with
         | some a, some b => some (a + b)
         | _, _ => none) := rfl
  constructor
  · intro h
    rw [hocf, hcap] at h
    rw [hfcf]
    rcases h with h | h
    · rw [h]
    · rw [h]
      cases orFloat (pick_latest_annual_usd cf.facts "NetCashProvidedByUsedInOperatingActivities")
        (pick_latest_annual_usd cf.facts
          "NetCashProvidedByUsedInOperatingActivitiesContinuingOperations") <;> rfl
  · intro a b ha hb
    rw [hocf] at ha
    rw [hcap] at hb
    rw [hfcf, ha, hb]

/-- Witness for C7 at the documented example: operating cash flow 110 with
capital expenditures -20 yields free cash flow 90 (a sum, not 130). -/
theorem claim_C7_witness :
    (build_raw_from_edgar exC7cf).statements.cashFlow.freeCashFlow = some 90 := by
  have h := (claim_C7 exC7cf).2 110 (-20) (by decide) (by decide)
  norm_num at h
  exact h

/-! ## Claim C8 -/

lemma orStr_spec (o : Option String) (b : String) :
    (∃ s, o = some s ∧ s ≠ "" ∧ orStr o b = s) ∨
    ((o = none ∨ o = some "") ∧ orStr o b = b) := by
  cases o with
  | none => exact Or.inr ⟨Or.inl rfl, rfl⟩
  | some s =>
    by_cases h : s = ""
    · subst h
      exact Or.inr ⟨Or.inr rfl, by simp [orStr]⟩
    · exact Or.inl ⟨s, rfl, h, by simp [orStr, h]⟩

/-- C8 (amended: Python "or" also treats the empty string as absent, so an
empty period-end date string falls back to the stringified fiscal year; and
when the selected entry has no fy field, str(None) gives the text None):
asOf tries the latest-annual entry for total assets, then revenue, then net
income, in order; a found entry contributes its period-end date when that is
present and non-empty, else its stringified fy field; when no concept yields
an entry, asOf is the reported entity name, or the empty string when that is
absent. -/
theorem claim_C8_amended (cf : CompanyFacts) :
    (∀ e, pick_latest_annual_entry cf.facts "Assets" = some e →
      ((∃ s, e.endDate = some s ∧ s ≠ "" ∧ (build_raw_from_edgar cf).asOf = s) ∨
       ((e.endDate = none ∨ e.endDate = some "") ∧
        (build_raw_from_edgar cf).asOf = pyStrOfFy e.fy))) ∧
    (pick_latest_annual_entry cf.facts "Assets" = none →
      ∀ e, pick_latest_annual_entry cf.facts "Revenues" = some e →
      ((∃ s, e.endDate = some s ∧ s ≠ "" ∧ (build_raw_from_edgar cf).asOf = s) ∨
       ((e.endDate = none ∨ e.endDate = some "") ∧
        (build_raw_from_edgar cf).asOf = pyStrOfFy e.fy))) ∧
    (pick_latest_annual_entry cf.facts "Assets" = none →
      pick_latest_annual_entry cf.facts "Revenues" = none →
      ∀ e, pick_latest_annual_entry cf.facts "NetIncomeLoss" = some e →
      ((∃ s, e.endDate = some s ∧ s ≠ "" ∧ (build_raw_from_edgar cf).asOf = s) ∨
       ((e.endDate = none ∨ e.endDate = some "") ∧
        (build_raw_from_edgar cf).asOf = pyStrOfFy e.fy))) ∧
    (pick_latest_annual_entry cf.facts "Assets" = none →
      pick_latest_annual_entry cf.facts "Revenues" = none →
      pick_latest_annual_entry cf.facts "NetIncomeLoss" = none →
      (build_raw_from_edgar cf).asOf = cf.entityName.getD "") := by
  have hasof : (build_raw_from_edgar cf).asOf =
      (match orEntry (pick_latest_annual_entry cf.facts "Assets")
          (orEntry (pick_latest_annual_entry cf.facts "Revenues")
            (pick_latest_annual_entry cf.facts "NetIncomeLoss")) with
       | some e => orStr e.endDate (pyStrOfFy e.fy)
       | none => cf.entityName.getD "") := rfl
  refine ⟨?_, ?_, ?_, ?_⟩
  · intro e he
    have h2 : (build_raw_from_edgar cf).asOf = orStr e.endDate (pyStrOfFy e.fy) := by
      rw [hasof, he]
      rfl
    rcases orStr_spec e.endDate (pyStrOfFy e.fy) with ⟨s, hs, hne, hv⟩ | ⟨hcase, hv⟩
    · exact Or.inl ⟨s, hs, hne, by rw [h2, hv]⟩
    · exact Or.inr ⟨hcase, by rw [h2, hv]⟩
  · intro hA e he
    have h2 : (build_raw_from_edgar cf).asOf = orStr e.endDate (pyStrOfFy e.fy) := by
      rw [hasof, hA, he]
      rfl
    rcases orStr_spec e.endDate (pyStrOfFy e.fy) with ⟨s, hs, hne, hv⟩ | ⟨hcase, hv⟩
    · exact Or.inl ⟨s, hs, hne, by rw [h2, hv]⟩
    · exact Or.inr ⟨hcase, by rw [h2, hv]⟩
  · intro hA hR e he
    have h2 : (build_raw_from_edgar cf).asOf = orStr e.endDate (pyStrOfFy e.fy) := by
      rw [hasof, hA, hR, he]
      rfl
    rcases orStr_spec e.endDate (pyStrOfFy e.fy) with ⟨s, hs, hne, hv⟩ | ⟨hcase, hv⟩
    · exact Or.inl ⟨s, hs, hne, by rw [h2, hv]⟩
    · exact Or.inr ⟨hcase, by rw [h2, hv]⟩
  · intro hA hR hN
    rw [hasof, hA, hR, hN]
    rfl

/-- Counterexample for C8 as stated: the sole Assets entry carries the
period-end date "" (present, an empty string), yet asOf is the stringified
fiscal year 2023 rather than that end-date string. -/
theorem claim_C8_counterexample :
    pick_latest_annual_entry exC8cf.facts "Assets" = some (obsEnd 2023 1 "") ∧
    (obsEnd 2023 1 "").endDate = some "" ∧
    (build_raw_from_edgar exC8cf).asOf = "2023" ∧
    ("2023" : String) ≠ "" := by
  refine ⟨by decide, rfl, by decide, by decide⟩

/-- Witness for the amended C8: a present, non-empty end date becomes asOf. -/
theorem claim_C8_witness : (build_raw_from_edgar exC8wcf).asOf = "2024-09-28" := by
  have h := (claim_C8_amended exC8wcf).1 (obsEnd 2024 2 "2024-09-28") (by decide)
  rcases h with ⟨s, hs, hne, hv⟩ | ⟨hcase, hv⟩
  · have hs2 : "2024-09-28" = s := Option.some.inj hs
    rw [hv, ← hs2]
  · exfalso
    rcases hcase with h1 | h1
    · exact absurd h1 (by decide)
    · exact absurd h1 (by decide)

/-! ## Claim C9 -/

/-- C9: both variants emit a document with exactly the same fixed key set at
every level, whatever data the source provided; absent data appears as null
or an empty sequence, never as a missing key.  At the concrete example row,
revenue 100 is carried over and the empty cogs cell appears as null. -/
theorem claim_C9 :
    (∀ row : Row, fixedShape (renderDoc (fun n => PyNum.finite (n : ℚ)) PyNum.finite
      (build_payload row))) ∧
    (∀ cf : CompanyFacts, fixedShape (renderDoc (fun n => (n : ℚ)) id
      (build_raw_from_edgar cf))) ∧
    (build_payload exC9row).statements.incomeStatement.revenue = some (PyNum.finite 100) ∧
    (build_payload exC9row).statements.incomeStatement.cogs = none := by
  refine ⟨?_, ?_, ?_, rfl⟩
  · intro row
    exact ⟨rfl, rfl, rfl, rfl, rfl, rfl, rfl, rfl, rfl, rfl⟩
  · intro cf
    exact ⟨rfl, rfl, rfl, rfl, rfl, rfl, rfl, rfl, rfl, rfl⟩
  · have hval : (build_payload exC9row).statements.incomeStatement.revenue
        = some (PyNum.finite (pyDecValue false 100 0 0 0)) := rfl
    rw [hval]
    norm_num [pyDecValue]

/-! ## Claim C10 -/

/-- C10: the local CSV variant never computes derived fields or series:
for every row, workingCapital and retainedEarnings are null and every
sequence field of the document is empty, even when the input columns that
the EDGAR variant would use are present and numeric. -/
theorem claim_C10 (row : Row) :
    (build_payload row).optional.quality.workingCapital = none ∧
    (build_payload row).optional.quality.retainedEarnings = none ∧
    (build_payload row).market.historicalPrices = [] ∧
    (build_payload row).optional.quality.tenYearProfitHistory = [] ∧
    (build_payload row).optional.quality.segmentRevenue = [] ∧
    (build_payload row).optional.multiYearFinancials.revenue = [] ∧
    (build_payload row).optional.multiYearFinancials.ebitda = [] ∧
    (build_payload row).optional.multiYearFinancials.netIncome = [] ∧
    (build_payload row).optional.multiYearFinancials.freeCashFlow = [] ∧
    (build_payload row).optional.multiYearFinancials.bookValue = [] :=
  ⟨rfl, rfl, rfl, rfl, rfl, rfl, rfl, rfl, rfl, rfl⟩
